import Mathlib

/-
  Verification development for the USL-Championship-Soccer-Data repository.

  The single source file defines class `ASADataProcessor`, whose methods
  fetch tabular data from an external client (modelled here as a record of
  optional tables: `none` models a fetch that raises) and reshape it with
  pandas-style relational operations.  DataFrames are modelled as a list of
  column names plus rows of (column, value) pairs; every pandas operation
  used by the source (merge with suffixes, column selection, boolean
  filtering, explode, drop, astype) is embedded as an Option-valued
  function where `none` models a raised exception (KeyError / MergeError /
  TypeError).  Python's per-step try/except blocks become explicit matches
  that fall back to the last assigned value of the corresponding local
  variable, exactly following the statement order of the source.
-/

namespace USLData

/-- A scalar cell value: string, integer, or missing (NaN/None). -/
inductive Scalar where
  | s : String → Scalar
  | i : Int → Scalar
  | null : Scalar
deriving DecidableEq

/-- A cell value: a scalar or a Python list of scalars (multi-valued key). -/
inductive Val where
  | sc : Scalar → Val
  | lst : List Scalar → Val
deriving DecidableEq

/-- A row is an association list from column name to value. -/
abbrev Row := List (String × Val)

/-- A DataFrame: ordered column names and a list of rows. -/
structure DF where
  cols : List String
  rows : List Row
deriving DecidableEq

def DF.empty : DF := DF.mk [] []

/-- Look a column up in a row; missing entries read as NaN (rows are kept
consistent with `cols` by every operation below). -/
def rowGet (r : Row) (c : String) : Val :=
  match r.find? (fun p => p.1 == c) with
  | some p => p.2
  | none => Val.sc Scalar.null

/-- `suffix.data.isSuffixOf s.data`: the source's `str.endswith`. -/
def strEndsWith (s suf : String) : Bool :=
  List.isSuffixOf suf.data s.data

def hasCols (df : DF) (cs : List String) : Bool :=
  cs.all (fun c => df.cols.contains c)

/-- `df[[c1, ..., cn]]`: column selection/reordering; KeyError if missing. -/
def select (df : DF) (cs : List String) : Option DF :=
  if hasCols df cs then
    some (DF.mk cs (df.rows.map (fun r => cs.map (fun c => (c, rowGet r c)))))
  else none

/-- `df[df[c] == v]`; pandas `NaN == v` is False, so null never matches. -/
def filterEqCol (df : DF) (c : String) (v : Val) : Option DF :=
  if df.cols.contains c then
    some (DF.mk df.cols (df.rows.filter (fun r => rowGet r c == v)))
  else none

/-- `df[df[c] != v]`; pandas `NaN != v` is True, so null rows are kept. -/
def filterNeCol (df : DF) (c : String) (v : Val) : Option DF :=
  if df.cols.contains c then
    some (DF.mk df.cols (df.rows.filter (fun r => !(rowGet r c == v))))
  else none

/-- `df[c] = df[c].astype('category')`: KeyError when the column is
missing (e.g. on an empty fallback DataFrame); values are unchanged. -/
def astype_category (df : DF) (c : String) : Option DF :=
  if df.cols.contains c then some df else none

/-- `df.drop(columns=cs)`: KeyError when a label is missing. -/
def dropCols (df : DF) (cs : List String) : Option DF :=
  if cs.all (fun c => df.cols.contains c) then
    some (DF.mk (df.cols.filter (fun c => !(cs.contains c)))
      (df.rows.map (fun r => r.filter (fun p => !(cs.contains p.1)))))
  else none

/-- `df[c] = vs` with one value per row (adds or overwrites the column). -/
def setCol (df : DF) (c : String) (vs : List Val) : DF :=
  if df.cols.contains c then
    DF.mk df.cols
      ((df.rows.zip vs).map (fun p => p.1.map (fun q => if q.1 == c then (c, p.2) else q)))
  else
    DF.mk (df.cols ++ [c]) ((df.rows.zip vs).map (fun p => p.1 ++ [(c, p.2)]))

/-- `df[c] = v` broadcast to every row. -/
def setColConst (df : DF) (c : String) (v : Val) : DF :=
  setCol df c (df.rows.map (fun _ => v))

def nodupB : List String → Bool
  | [] => true
  | c :: cs => !(cs.contains c) && nodupB cs

inductive How where
  | inner
  | left
deriving DecidableEq

/-- Rename a column that collides with the other side of a merge. -/
def applySuf (overlap : List String) (suf : String) (c : String) : String :=
  if overlap.contains c then c ++ suf else c

/-- Join-key equality; NaN keys never match (pandas semantics). -/
def keyMatch (lk rk : String) (lr rr : Row) : Bool :=
  rowGet lr lk == rowGet rr rk && !(rowGet lr lk == Val.sc Scalar.null)

/-- Row combination underlying `pd.merge`: for each left row, emit one row
per matching right row; with no match, a left join emits the left row
padded with nulls and an inner join emits nothing. -/
def joinRows (how : How) (lrows rrows : List Row) (lk rk : String)
    (lpart rpart : Row → Row) (rnull : Row) : List Row :=
  (lrows.map (fun lr =>
    match rrows.filter (fun rr => keyMatch lk rk lr rr) with
    | [] =>
      match how with
      | How.left => [lpart lr ++ rnull]
      | How.inner => []
    | ms => ms.map (fun rr => lpart lr ++ rpart rr))).flatten

/-- `pd.merge(l, r, on=k, how=how, suffixes=(sl, sr))`.  KeyError when `k`
is missing on either side; MergeError when suffixing yields duplicate
column names.  Columns common to both sides (other than `k`) are suffixed;
the key column appears once, from the left side. -/
def mergeOn (l r : DF) (k : String) (how : How) (sl sr : String) : Option DF :=
  if l.cols.contains k && r.cols.contains k then
    let overlap := l.cols.filter (fun c => r.cols.contains c && !(c == k))
    let lcols := l.cols.map (applySuf overlap sl)
    let rcolsBase := r.cols.filter (fun c => !(c == k))
    let rcols := rcolsBase.map (applySuf overlap sr)
    if nodupB (lcols ++ rcols) then
      some (DF.mk (lcols ++ rcols)
        (joinRows how l.rows r.rows k k
          (fun lr => l.cols.map (fun c => (applySuf overlap sl c, rowGet lr c)))
          (fun rr => rcolsBase.map (fun c => (applySuf overlap sr c, rowGet rr c)))
          (rcolsBase.map (fun c => (applySuf overlap sr c, Val.sc Scalar.null)))))
    else none
  else none

/-- `pd.merge(l, r, left_on=lk, right_on=rk, how=how, suffixes=(sl, sr))`.
Both key columns are kept and are subject to suffixing when they collide. -/
def mergeLR (l r : DF) (lk rk : String) (how : How) (sl sr : String) : Option DF :=
  if l.cols.contains lk && r.cols.contains rk then
    let overlap := l.cols.filter (fun c => r.cols.contains c)
    let lcols := l.cols.map (applySuf overlap sl)
    let rcols := r.cols.map (applySuf overlap sr)
    if nodupB (lcols ++ rcols) then
      some (DF.mk (lcols ++ rcols)
        (joinRows how l.rows r.rows lk rk
          (fun lr => l.cols.map (fun c => (applySuf overlap sl c, rowGet lr c)))
          (fun rr => r.cols.map (fun c => (applySuf overlap sr c, rowGet rr c)))
          (r.cols.map (fun c => (applySuf overlap sr c, Val.sc Scalar.null)))))
    else none
  else none

/-- `df.explode(c)`: one row per element of a list value; an empty list
explodes to a single null; scalars are kept as-is. -/
def explode (df : DF) (c : String) : Option DF :=
  if df.cols.contains c then
    some (DF.mk df.cols ((df.rows.map (fun r =>
      match rowGet r c with
      | Val.lst [] => [r.map (fun p => if p.1 == c then (c, Val.sc Scalar.null) else p)]
      | Val.lst xs => xs.map (fun x => r.map (fun p => if p.1 == c then (c, Val.sc x) else p))
      | Val.sc _ => [r])).flatten))
  else none

/-! ## The external client

Each field models one client call: `some df` is a successful fetch of the
table `df`, `none` a call that raises. -/

structure Client where
  players : Option DF
  teams : Option DF
  stadia : Option DF
  managers : Option DF
  get_referees : Option DF
  get_team_goals_added : Option DF
  get_team_xgoals : Option DF
  get_team_xpass : Option DF
  get_goalkeeper_xgoals : Option DF
  get_goalkeeper_goals_added : Option DF
  get_player_goals_added : Option DF
  get_player_xgoals : Option DF
  get_player_xpass : Option DF
  get_games : Option DF
  get_game_xgoals : Option DF
deriving DecidableEq

/-! ## ASADataProcessor constants (source lines 20-32) -/

def COMPETITION : String := "uslc"
def DUPLICATE_SUFFIX : String := "_dup"
def TEAM_ID : String := "team_id"
def PLAYER_ID : String := "player_id"
def STADIUM_ID : String := "stadium_id"
def MANAGER_ID : String := "manager_id"
def REFEREE_ID : String := "referee_id"
def HOME_TEAM_ID : String := "home_team_id"
def HOME_MANAGER_ID : String := "home_manager_id"
def AWAY_TEAM_ID : String := "away_team_id"
def AWAY_MANAGER_ID : String := "away_manager_id"
def GAME_ID : String := "game_id"

/-! ## calculate_result / calculate_points (source lines 43-67) and the
result_away lambda (line 355) -/

/-- Python `>` on cell values: int/int and str/str compare, comparisons
against NaN are False, anything else raises (TypeError → `none`). -/
def valGT (a b : Val) : Option Bool :=
  match a, b with
  | Val.sc Scalar.null, _ => some false
  | _, Val.sc Scalar.null => some false
  | Val.sc (Scalar.i x), Val.sc (Scalar.i y) => some (decide (y < x))
  | Val.sc (Scalar.s x), Val.sc (Scalar.s y) => some (decide (y < x))
  | _, _ => none

/-- `calculate_result(row)`: 'win' if home_score > away_score, 'loss' if
home_score < away_score, else 'draw'. -/
def calculate_result (row : Row) : Option String := do
  let gt ← valGT (rowGet row "home_score") (rowGet row "away_score")
  if gt then pure "win"
  else do
    let lt ← valGT (rowGet row "away_score") (rowGet row "home_score")
    if lt then pure "loss" else pure "draw"

/-- `calculate_points(result)`: `3 if result == 'win' else 1 if result ==
'draw' else 0`, total on any value like the Python conditional chain. -/
def calculate_points (result : Val) : Val :=
  if result == Val.sc (Scalar.s "win") then Val.sc (Scalar.i 3)
  else if result == Val.sc (Scalar.s "draw") then Val.sc (Scalar.i 1)
  else Val.sc (Scalar.i 0)

/-- The lambda of line 355: `'win' if x == 'loss' else 'loss' if x ==
'win' else 'draw'`. -/
def away_result_of (x : Val) : Val :=
  if x == Val.sc (Scalar.s "loss") then Val.sc (Scalar.s "win")
  else if x == Val.sc (Scalar.s "win") then Val.sc (Scalar.s "loss")
  else Val.sc (Scalar.s "draw")

/-- A game row holding just the two numeric score fields. -/
def mkScoreRow (h a : Int) : Row :=
  [("home_score", Val.sc (Scalar.i h)), ("away_score", Val.sc (Scalar.i a))]

def valToInt (v : Val) : Int :=
  match v with
  | Val.sc (Scalar.i n) => n
  | _ => 0

/-! ## add_*_names helpers (source lines 69-137) -/

/-- `add_player_names` (lines 69-80): left-merge `player_name` on
`player_id`; pandas default suffixes apply. -/
def add_player_names (df players_df : DF) : Option DF := do
  let t ← select players_df [PLAYER_ID, "player_name"]
  mergeOn df t PLAYER_ID How.left "_x" "_y"

def isListVal : Val → Bool
  | Val.lst _ => true
  | Val.sc _ => false

/-- `add_team_names` (lines 82-98): if the `team_id` column holds any list,
explode it first; then left-merge only `team_id` and `team_name` from the
teams table (default suffixes). -/
def add_team_names (df teams_df : DF) : Option DF :=
  if df.cols.contains TEAM_ID && df.rows.any (fun r => isListVal (rowGet r TEAM_ID)) then do
    let e ← explode df TEAM_ID
    let t ← select teams_df [TEAM_ID, "team_name"]
    mergeOn e t TEAM_ID How.left "_x" "_y"
  else do
    let t ← select teams_df [TEAM_ID, "team_name"]
    mergeOn df t TEAM_ID How.left "_x" "_y"

/-- `add_stadium_names` (lines 100-111). -/
def add_stadium_names (df stadium_df : DF) : Option DF := do
  let t ← select stadium_df [STADIUM_ID, "stadium_name"]
  mergeOn df t STADIUM_ID How.left "_x" "_y"

/-- `add_manager_names` (lines 113-124). -/
def add_manager_names (df managers_df : DF) : Option DF := do
  let t ← select managers_df [MANAGER_ID, "manager_name"]
  mergeOn df t MANAGER_ID How.left "_x" "_y"

/-- `add_referee_names` (lines 126-137). -/
def add_referee_names (df referees_df : DF) : Option DF := do
  let t ← select referees_df [REFEREE_ID, "referee_name"]
  mergeOn df t REFEREE_ID How.left "_x" "_y"

/-! ## merge_team_statistics (source lines 139-168) -/

/-- One statement of lines 156-158:
`teams = pd.merge(teams, stats, on='team_id', how='left',
suffixes=('', '_dup')).drop(columns=[col for col in teams.columns if
col.endswith('_dup')])`.  Note that the drop list is computed from the
PRE-merge `teams` binding, exactly as Python evaluates the right-hand side
before rebinding `teams`. -/
def teamStatStep (teams stats : DF) : Option DF := do
  let m ← mergeOn teams stats TEAM_ID How.left "" DUPLICATE_SUFFIX
  dropCols m (teams.cols.filter (fun c => strEndsWith c DUPLICATE_SUFFIX))

/-- Lines 160-163: ensure each expected column exists, defaulting to 0. -/
def ensureExpectedCols (teams : DF) : DF :=
  if teams.cols.contains "avg_vertical_distance_diff" then teams
  else setColConst teams "avg_vertical_distance_diff" (Val.sc (Scalar.i 0))

/-- `merge_team_statistics(teams)`: the whole body is one try/except; an
exception at any statement returns the current value of the local `teams`. -/
def merge_team_statistics (cl : Client) (teams : DF) : DF :=
  match cl.get_team_goals_added with
  | none => teams
  | some team_goals_added =>
  match cl.get_team_xgoals with
  | none => teams
  | some team_xgoals =>
  match cl.get_team_xpass with
  | none => teams
  | some team_xpass =>
  match teamStatStep teams team_goals_added with
  | none => teams
  | some teams1 =>
  match teamStatStep teams1 team_xgoals with
  | none => teams1
  | some teams2 =>
  match teamStatStep teams2 team_xpass with
  | none => teams2
  | some teams3 => ensureExpectedCols teams3

/-! ## Game enrichment (source lines 338-389) -/

/-- Lines 353-356: compute result_home, points_home, result_away,
points_away.  `apply(calculate_result, axis=1)` raises KeyError when a
score column is missing and TypeError on incomparable values; on success
the four derived columns are appended in order. -/
def computeDerived (games : DF) : Option DF :=
  if games.cols.contains "home_score" && games.cols.contains "away_score" then
    match games.rows.mapM calculate_result with
    | none => none
    | some results =>
      let g1 := setCol games "result_home" (results.map (fun s => Val.sc (Scalar.s s)))
      let g2 := setCol g1 "points_home" (g1.rows.map (fun r => calculate_points (rowGet r "result_home")))
      let g3 := setCol g2 "result_away" (g2.rows.map (fun r => away_result_of (rowGet r "result_home")))
      some (setCol g3 "points_away" (g3.rows.map (fun r => calculate_points (rowGet r "result_away"))))
  else none

/-- Lines 339-358, the games try block.  The local `games` starts unbound
(`none`); each failed statement leaves it at its last assigned value.  The
home/away team and manager merges (lines 345-350) pass no `how=` argument,
so they are INNER joins; lines 341-342 are left joins. -/
def gamesBlock (cl : Client) (stadium refs teams mgrs : DF) : Option DF :=
  match cl.get_games with
  | none => none
  | some g0 =>
  match add_stadium_names g0 stadium with
  | none => some g0
  | some g1 =>
  match add_referee_names g1 refs with
  | none => some g1
  | some g2 =>
  match (do
      let t ← select teams [TEAM_ID, "team_name", "team_abbreviation"]
      mergeLR g2 t HOME_TEAM_ID TEAM_ID How.inner "_x" "_y") with
  | none => some g2
  | some g3 =>
  match (do
      let t ← select teams [TEAM_ID, "team_name", "team_abbreviation"]
      mergeLR g3 t AWAY_TEAM_ID TEAM_ID How.inner "_home" "_away") with
  | none => some g3
  | some g4 =>
  match (do
      let t ← select mgrs [MANAGER_ID, "manager_name"]
      mergeLR g4 t HOME_MANAGER_ID MANAGER_ID How.inner "_x" "_y") with
  | none => some g4
  | some g5 =>
  match (do
      let t ← select mgrs [MANAGER_ID, "manager_name"]
      mergeLR g5 t AWAY_MANAGER_ID MANAGER_ID How.inner "_home" "_away") with
  | none => some g5
  | some g6 =>
  match computeDerived g6 with
  | none => some g6
  | some g7 => some g7

/-- Lines 360-366: fetch game xGoals and left-merge on game_id with
suffixes ('', '_xG').  When `games` is still unbound, referencing it
raises UnboundLocalError, which the except clause catches (it only resets
games_xG), leaving `games` unbound. -/
def gameXGStep (cl : Client) (games : Option DF) : Option DF :=
  match cl.get_game_xgoals with
  | none => games
  | some gxg =>
    match games with
    | none => none
    | some g =>
      match mergeOn g gxg GAME_ID How.left "" "_xG" with
      | some m => some m
      | none => games

/-- Python `a + " v " + b` on cell values: string concatenation; NaN
propagates; any other operand type raises. -/
def concatAbbr (a b : Val) : Option Val :=
  match a, b with
  | Val.sc (Scalar.s x), Val.sc (Scalar.s y) => some (Val.sc (Scalar.s (x ++ " v " ++ y)))
  | Val.sc Scalar.null, _ => some (Val.sc Scalar.null)
  | _, Val.sc Scalar.null => some (Val.sc Scalar.null)
  | _, _ => none

/-- Line 370: build `match_name` from the two abbreviation columns. -/
def matchNameStep (g : DF) : Option DF :=
  if g.cols.contains "team_abbreviation_home" && g.cols.contains "team_abbreviation_away" then
    match g.rows.mapM (fun r =>
        concatAbbr (rowGet r "team_abbreviation_home") (rowGet r "team_abbreviation_away")) with
    | none => none
    | some vs => some (setCol g "match_name" vs)
  else none

/-- Lines 369-373: the match-name try block; statement 2 is the in-place
drop of the transient xG merge columns. -/
def matchNameAndDrop (g : DF) : DF :=
  match matchNameStep g with
  | none => g
  | some g1 =>
    match dropCols g1 ["date_time_utc_xG", "home_team_id_xG", "away_team_id_xG", "last_updated_utc"] with
    | none => g1
    | some g2 => g2

/-! ## Output column lists (source lines 207-218, 303-312, 325-336, 377-386) -/

def teamsColsSel : List String :=
  ["team_id", "team_name", "team_short_name", "team_abbreviation", "competition", "minutes", "data",
   "count_games", "shots_for", "shots_against", "goals_for", "goals_against", "goal_difference",
   "xgoals_for", "xgoals_against", "xgoal_difference", "goal_difference_minus_xgoal_difference",
   "points", "xpoints", "attempted_passes_for", "pass_completion_percentage_for",
   "xpass_completion_percentage_for", "passes_completed_over_expected_for",
   "passes_completed_over_expected_p100_for", "avg_vertical_distance_for",
   "attempted_passes_against", "pass_completion_percentage_against",
   "xpass_completion_percentage_against", "passes_completed_over_expected_against",
   "passes_completed_over_expected_p100_against", "avg_vertical_distance_against",
   "passes_completed_over_expected_difference", "avg_vertical_distance_diff"]

def playersColsSel : List String :=
  ["player_id", "player_name", "birth_date", "nationality", "height_ft", "height_in", "weight_lb",
   "primary_broad_position", "primary_general_position", "secondary_broad_position", "secondary_general_position",
   "team_id", "team_name", "season_name", "competition", "general_position", "minutes_played", "shots",
   "shots_on_target", "goals", "xgoals", "xplace", "goals_minus_xgoals", "key_passes", "primary_assists",
   "xassists", "primary_assists_minus_xassists", "xgoals_plus_xassists", "points_added", "xpoints_added",
   "attempted_passes", "pass_completion_percentage", "xpass_completion_percentage",
   "passes_completed_over_expected", "passes_completed_over_expected_p100", "avg_distance_yds",
   "avg_vertical_distance_yds", "share_team_touches", "count_games", "data"]

def gkColsSel : List String :=
  playersColsSel ++
  ["minutes_played", "shots_faced", "goals_conceded", "saves", "share_headed_shots", "xgoals_gk_faced",
   "goals_minus_xgoals_gk", "goals_divided_by_xgoals_gk"]

def gamesColsSel : List String :=
  ["game_id", "date_time_utc", "season_name", "matchday", "match_name", "attendance", "knockout_game",
   "extra_time", "penalties", "home_penalties", "away_penalties", "expanded_minutes", "home_team_id",
   "team_name_home", "team_abbreviation_home", "away_team_id", "team_name_away", "team_abbreviation_away",
   "home_score", "away_score", "home_goals", "away_goals", "home_team_xgoals", "away_team_xgoals",
   "home_player_xgoals", "away_player_xgoals", "goal_difference", "team_xgoal_difference",
   "player_xgoal_difference", "final_score_difference", "home_xpoints", "away_xpoints", "result_home",
   "points_home", "result_away", "points_away", "referee_id", "referee_name", "stadium_id", "stadium_name",
   "home_manager_id", "manager_name_home", "away_manager_id", "manager_name_away"]

/-! ## fetch_data (source lines 170-406) -/

/-- `client.<attr>[client.<attr>['competition'] == competition].copy()`
with its enclosing try/except: empty DataFrame on failure. -/
def fetchDim (t : Option DF) (competition : String) : DF :=
  match t.bind (fun df => filterEqCol df "competition" (Val.sc (Scalar.s competition))) with
  | some d => d
  | none => DF.empty

/-- Lines 281-286, one loop iteration: merge a player stats table on
player_id (suffixes ('', '_dup')) and drop '_dup' columns; guarded, so a
failure leaves `players` unchanged. -/
def playerStatStep (players stats : DF) : DF :=
  match (do
    let m ← mergeOn players stats PLAYER_ID How.left "" DUPLICATE_SUFFIX
    select m (m.cols.filter (fun c => !(strEndsWith c DUPLICATE_SUFFIX)))) with
  | some p => p
  | none => players

/-- Lines 320-322, one loop iteration: the goalkeeper statistics merge.
UNGUARDED in the source: a failure propagates to the top-level handler. -/
def gkStatStep (gks stats : DF) : Option DF := do
  let m ← mergeOn gks stats PLAYER_ID How.left "" DUPLICATE_SUFFIX
  select m (m.cols.filter (fun c => !(strEndsWith c DUPLICATE_SUFFIX)))

/-- `opt.getD d` written as the except-fallback it models. -/
def orElseDF (t : Option DF) (d : DF) : DF :=
  match t with
  | some x => x
  | none => d

/-- Lines 199-218: team statistics merge, the two unguarded astype
conversions and the unguarded column selection. -/
def teamsStage (cl : Client) (teams0 : DF) : Option DF :=
  match astype_category (merge_team_statistics cl teams0) "team_name" with
  | none => none
  | some teamsA =>
  match astype_category teamsA "team_abbreviation" with
  | none => none
  | some teamsB => select teamsB teamsColsSel

/-- Lines 248-253: the goalkeeper xGoals block (fallback: empty frame). -/
def gkXGStage (cl : Client) (players0 teams : DF) : DF :=
  orElseDF
    (match cl.get_goalkeeper_xgoals with
     | none => none
     | some g =>
       match add_player_names g players0 with
       | none => none
       | some g1 => add_team_names g1 teams)
    DF.empty

/-- Lines 281-314: the guarded player statistics merges, the five
unguarded astype conversions, the guarded team-name enrichment of the
exploded player table, and the guarded column selection. -/
def playersStage (cl : Client) (players0 teams : DF) : Option DF :=
  let players1 := playerStatStep players0 (orElseDF cl.get_player_goals_added DF.empty)
  let players2 := playerStatStep players1 (orElseDF cl.get_player_xgoals DF.empty)
  let players3 := playerStatStep players2 (orElseDF cl.get_player_xpass DF.empty)
  match astype_category players3 "nationality" with
  | none => none
  | some players4 =>
  match astype_category players4 "primary_broad_position" with
  | none => none
  | some players5 =>
  match astype_category players5 "primary_general_position" with
  | none => none
  | some players6 =>
  match astype_category players6 "secondary_broad_position" with
  | none => none
  | some players7 =>
  match astype_category players7 "secondary_general_position" with
  | none => none
  | some players8 =>
  let players9 :=
    match (match explode players8 TEAM_ID with
           | none => none
           | some e => add_team_names e teams) with
    | some d => d
    | none => players8
  some (orElseDF (select players9 playersColsSel) players9)

/-- Lines 316-336: the unguarded field-player/goalkeeper split, the
unguarded goalkeeper statistics merges and the unguarded selection. -/
def goalkeepersStage (players10 gk_xG gk_G_added : DF) : Option (DF × DF) :=
  match filterNeCol players10 "primary_broad_position" (Val.sc (Scalar.s "GK")) with
  | none => none
  | some field_players =>
  match filterEqCol players10 "primary_broad_position" (Val.sc (Scalar.s "GK")) with
  | none => none
  | some goalkeepers0 =>
  match gkStatStep goalkeepers0 gk_xG with
  | none => none
  | some goalkeepers1 =>
  match gkStatStep goalkeepers1 gk_G_added with
  | none => none
  | some goalkeepers2 =>
  match select goalkeepers2 gkColsSel with
  | none => none
  | some goalkeepers => some (field_players, goalkeepers)

/-- Lines 339-389: the games enrichment, xG merge, match-name/drop and
column-selection blocks, each with its own except clause.  The result is
the final state of the local `games`, still unbound (`none`) when
get_games itself raised. -/
def gamesStage (cl : Client) (stadium refs teams mgrs : DF) : Option DF :=
  match gameXGStep cl (gamesBlock cl stadium refs teams mgrs) with
  | none => none
  | some g =>
    let g1 := matchNameAndDrop g
    some (orElseDF (select g1 gamesColsSel) g1)

/-- The body of fetch_data's outer try (lines 182-401); `none` models an
exception reaching the top-level handler, after which `data` is still the
initial empty dict. -/
def fetch_data_body (cl : Client) (competition : String) : Option (List (String × DF)) :=
  let players0 := fetchDim cl.players competition
  let teams0 := fetchDim cl.teams competition
  match teamsStage cl teams0 with
  | none => none
  | some teams =>
  let stadium := fetchDim cl.stadia competition
  match astype_category (fetchDim cl.managers competition) "manager_name" with
  | none => none
  | some mgrs =>
  match astype_category (orElseDF cl.get_referees DF.empty) "referee_name" with
  | none => none
  | some refs =>
  let gk_xG := gkXGStage cl players0 teams
  let gk_G_added := orElseDF cl.get_goalkeeper_goals_added DF.empty
  match playersStage cl players0 teams with
  | none => none
  | some players10 =>
  match goalkeepersStage players10 gk_xG gk_G_added with
  | none => none
  | some fpgk =>
  match gamesStage cl stadium refs teams mgrs with
  | none => none
  | some games =>
  some [("games", games), ("players", players10), ("field_players", fpgk.1),
        ("goalkeepers", fpgk.2), ("teams", teams), ("stadium", stadium),
        ("mgrs", mgrs), ("refs", refs)]

/-- `fetch_data(competition)` (lines 170-406).  Line 184 immediately
rebinds the parameter to the class constant; the top-level except returns
the initial empty mapping. -/
def fetch_data (cl : Client) (competition : String) : List (String × DF) :=
  let competition := COMPETITION
  match fetch_data_body cl competition with
  | some d => d
  | none => []

/-- `datasets[key]` with an empty-table default, for stating properties. -/
def getTable (m : List (String × DF)) (k : String) : DF :=
  match m.find? (fun p => p.1 == k) with
  | some p => p.2
  | none => DF.empty

def headRow (df : DF) : Row := df.rows.headD []

/-! ## Concrete client fixtures

A small, fully populated season: two teams, one field player, one game
(home 2 - away 1), one stadium, two managers and one referee, with
well-formed statistics tables, used to evaluate the pipeline at concrete
inputs.  Variants turn exactly one fetch into a raised exception. -/

def playersRawCols : List String := playersColsSel.filter (fun c => !(c == "team_name"))

def playerRowMk : Row :=
  playersRawCols.map (fun c =>
    (c, if c == "player_id" then Val.sc (Scalar.i 10)
        else if c == "player_name" then Val.sc (Scalar.s "P One")
        else if c == "primary_broad_position" then Val.sc (Scalar.s "MF")
        else if c == "team_id" then Val.sc (Scalar.i 1)
        else if c == "competition" then Val.sc (Scalar.s "uslc")
        else Val.sc (Scalar.i 0)))

def playersTable : DF := DF.mk playersRawCols [playerRowMk]

def teamRowMk (tid : Int) (nm ab : String) : Row :=
  teamsColsSel.map (fun c =>
    (c, if c == "team_id" then Val.sc (Scalar.i tid)
        else if c == "team_name" then Val.sc (Scalar.s nm)
        else if c == "team_abbreviation" then Val.sc (Scalar.s ab)
        else if c == "competition" then Val.sc (Scalar.s "uslc")
        else Val.sc (Scalar.i 0)))

def teamsTable : DF := DF.mk teamsColsSel [teamRowMk 1 "Team A" "A", teamRowMk 2 "Team B" "B"]

def stadiaTable : DF :=
  DF.mk ["stadium_id", "stadium_name", "competition"]
    [[("stadium_id", Val.sc (Scalar.i 7)), ("stadium_name", Val.sc (Scalar.s "Stadium X")),
      ("competition", Val.sc (Scalar.s "uslc"))]]

def managersTable : DF :=
  DF.mk ["manager_id", "manager_name", "competition"]
    [[("manager_id", Val.sc (Scalar.i 5)), ("manager_name", Val.sc (Scalar.s "Mgr H")),
      ("competition", Val.sc (Scalar.s "uslc"))],
     [("manager_id", Val.sc (Scalar.i 6)), ("manager_name", Val.sc (Scalar.s "Mgr I")),
      ("competition", Val.sc (Scalar.s "uslc"))]]

def refsTable : DF :=
  DF.mk ["referee_id", "referee_name"]
    [[("referee_id", Val.sc (Scalar.i 8)), ("referee_name", Val.sc (Scalar.s "Ref Y"))]]

def teamStatTable : DF := DF.mk ["team_id"] []

def pStatTable : DF := DF.mk ["player_id"] []

def gkXGTable : DF := DF.mk ["player_id", "team_id"] []

def gkGATable : DF :=
  DF.mk ["player_id", "shots_faced", "goals_conceded", "saves", "share_headed_shots",
         "xgoals_gk_faced", "goals_minus_xgoals_gk", "goals_divided_by_xgoals_gk"] []

def gamesRawCols : List String :=
  ["game_id", "date_time_utc", "season_name", "matchday", "attendance", "knockout_game",
   "extra_time", "penalties", "home_penalties", "away_penalties", "expanded_minutes",
   "home_team_id", "away_team_id", "home_score", "away_score", "referee_id", "stadium_id",
   "home_manager_id", "away_manager_id"]

def gameRowMk (homeTid : Int) : Row :=
  gamesRawCols.map (fun c =>
    (c, if c == "game_id" then Val.sc (Scalar.i 100)
        else if c == "home_team_id" then Val.sc (Scalar.i homeTid)
        else if c == "away_team_id" then Val.sc (Scalar.i 2)
        else if c == "home_score" then Val.sc (Scalar.i 2)
        else if c == "away_score" then Val.sc (Scalar.i 1)
        else if c == "referee_id" then Val.sc (Scalar.i 8)
        else if c == "stadium_id" then Val.sc (Scalar.i 7)
        else if c == "home_manager_id" then Val.sc (Scalar.i 5)
        else if c == "away_manager_id" then Val.sc (Scalar.i 6)
        else Val.sc (Scalar.i 0)))

def gamesTable : DF := DF.mk gamesRawCols [gameRowMk 1]

/-- The same game, but home_team_id references a team that does not exist. -/
def gamesTableUnresolved : DF := DF.mk gamesRawCols [gameRowMk 3]

def gamesXGCols : List String :=
  ["game_id", "date_time_utc", "home_team_id", "away_team_id", "last_updated_utc",
   "home_goals", "away_goals", "home_team_xgoals", "away_team_xgoals", "home_player_xgoals",
   "away_player_xgoals", "goal_difference", "team_xgoal_difference", "player_xgoal_difference",
   "final_score_difference", "home_xpoints", "away_xpoints"]

def gamesXGTable : DF :=
  DF.mk gamesXGCols
    [gamesXGCols.map (fun c =>
      (c, if c == "game_id" then Val.sc (Scalar.i 100) else Val.sc (Scalar.i 0)))]

def mkClient (pl tm st mg rf tga txg txp gkx gkga pga pxg pxp gm gxg : Option DF) : Client :=
  Client.mk pl tm st mg rf tga txg txp gkx gkga pga pxg pxp gm gxg

/-- Every fetch succeeds. -/
def baseClient : Client :=
  mkClient (some playersTable) (some teamsTable) (some stadiaTable) (some managersTable)
    (some refsTable) (some teamStatTable) (some teamStatTable) (some teamStatTable)
    (some gkXGTable) (some gkGATable) (some pStatTable) (some pStatTable) (some pStatTable)
    (some gamesTable) (some gamesXGTable)

/-- Like `baseClient`, but the stadium fetch raises. -/
def stadiaFailClient : Client :=
  mkClient (some playersTable) (some teamsTable) none (some managersTable)
    (some refsTable) (some teamStatTable) (some teamStatTable) (some teamStatTable)
    (some gkXGTable) (some gkGATable) (some pStatTable) (some pStatTable) (some pStatTable)
    (some gamesTable) (some gamesXGTable)

/-- Like `baseClient`, but the managers fetch raises. -/
def managersFailClient : Client :=
  mkClient (some playersTable) (some teamsTable) (some stadiaTable) none
    (some refsTable) (some teamStatTable) (some teamStatTable) (some teamStatTable)
    (some gkXGTable) (some gkGATable) (some pStatTable) (some pStatTable) (some pStatTable)
    (some gamesTable) (some gamesXGTable)

/-- Like `baseClient`, but `get_games` raises. -/
def gamesFailClient : Client :=
  mkClient (some playersTable) (some teamsTable) (some stadiaTable) (some managersTable)
    (some refsTable) (some teamStatTable) (some teamStatTable) (some teamStatTable)
    (some gkXGTable) (some gkGATable) (some pStatTable) (some pStatTable) (some pStatTable)
    none (some gamesXGTable)

/-- Like `baseClient`, but the one game references an unknown home team. -/
def unresolvedGameClient : Client :=
  mkClient (some playersTable) (some teamsTable) (some stadiaTable) (some managersTable)
    (some refsTable) (some teamStatTable) (some teamStatTable) (some teamStatTable)
    (some gkXGTable) (some gkGATable) (some pStatTable) (some pStatTable) (some pStatTable)
    (some gamesTableUnresolved) (some gamesXGTable)

/-! ## Fixtures for merge_team_statistics (C3, C4) -/

/-- A teams table with one non-key column `shared` and no
avg_vertical_distance_diff column. -/
def dupTeams : DF :=
  DF.mk ["team_id", "shared"]
    [[("team_id", Val.sc (Scalar.i 1)), ("shared", Val.sc (Scalar.s "orig"))]]

/-- An xpass statistics table whose column `shared` collides with the
teams table. -/
def dupXPass : DF :=
  DF.mk ["team_id", "shared"]
    [[("team_id", Val.sc (Scalar.i 1)), ("shared", Val.sc (Scalar.s "new"))]]

/-- All three team statistic fetches succeed; the xpass one collides on
column `shared`. -/
def dupStatClient : Client :=
  mkClient none none none none none
    (some teamStatTable) (some teamStatTable) (some dupXPass)
    none none none none none none none

/-- A goals-added table carrying a fresh statistic column. -/
def gaStat : DF :=
  DF.mk ["team_id", "ga_stat"]
    [[("team_id", Val.sc (Scalar.i 1)), ("ga_stat", Val.sc (Scalar.i 4))]]

/-- An xgoals table carrying a fresh statistic column. -/
def xgStat : DF :=
  DF.mk ["team_id", "xg_stat"]
    [[("team_id", Val.sc (Scalar.i 1)), ("xg_stat", Val.sc (Scalar.i 9))]]

/-- The goals-added fetch raises; the other two statistic fetches succeed
and would contribute the columns ga_stat / xg_stat. -/
def gaFailStatClient : Client :=
  mkClient none none none none none
    none (some xgStat) (some dupXPass)
    none none none none none none none

/-! ## Fixtures for add_team_names (C8) -/

/-- One player row whose team_id is the two-element list [1, 2]. -/
def multiTeamPlayer : DF :=
  DF.mk ["player_id", "team_id"]
    [[("player_id", Val.sc (Scalar.i 10)), ("team_id", Val.lst [Scalar.i 1, Scalar.i 2])]]

/-- A two-team dimension table with names and abbreviations. -/
def twoTeams (na nb a1 a2 : String) : DF :=
  DF.mk ["team_id", "team_name", "team_abbreviation"]
    [[("team_id", Val.sc (Scalar.i 1)), ("team_name", Val.sc (Scalar.s na)),
      ("team_abbreviation", Val.sc (Scalar.s a1))],
     [("team_id", Val.sc (Scalar.i 2)), ("team_name", Val.sc (Scalar.s nb)),
      ("team_abbreviation", Val.sc (Scalar.s a2))]]

/-- The two expanded-and-enriched rows the source produces: identical
except for team_id and team_name; no abbreviation column is merged. -/
def multiTeamExpanded (na nb : String) : DF :=
  DF.mk ["player_id", "team_id", "team_name"]
    [[("player_id", Val.sc (Scalar.i 10)), ("team_id", Val.sc (Scalar.i 1)),
      ("team_name", Val.sc (Scalar.s na))],
     [("player_id", Val.sc (Scalar.i 10)), ("team_id", Val.sc (Scalar.i 2)),
      ("team_name", Val.sc (Scalar.s nb))]]

lemma rowGet_home (h a : Int) : rowGet (mkScoreRow h a) "home_score" = Val.sc (Scalar.i h) := rfl

lemma rowGet_away (h a : Int) : rowGet (mkScoreRow h a) "away_score" = Val.sc (Scalar.i a) := rfl

lemma calculate_result_eval (h a : Int) :
    calculate_result (mkScoreRow h a) =
      some (if a < h then "win" else if h < a then "loss" else "draw") := by
  rw [calculate_result, rowGet_home, rowGet_away]
  by_cases h1 : a < h
  · simp [valGT, h1]
  · by_cases h2 : h < a
    · simp [valGT, h1, h2]
    · simp [valGT, h1, h2]

/-! ## General lemmas about the embedded join and filter operations -/

lemma filter_split_length {α : Type} (p : α → Bool) (l : List α) :
    (l.filter p).length + (l.filter (fun x => !(p x))).length = l.length := by
  induction l with
  | nil => rfl
  | cons x xs ih =>
    cases hx : p x <;> simp [List.filter_cons, hx] <;> omega

lemma length_le_flatten_map {α β : Type} (f : α → List β) (l : List α)
    (hf : ∀ x ∈ l, 1 ≤ (f x).length) : l.length ≤ ((l.map f).flatten).length := by
  induction l with
  | nil => simp
  | cons x xs ih =>
    simp only [List.map_cons, List.flatten_cons, List.length_append, List.length_cons]
    have h1 := hf x (by simp)
    have h2 := ih (fun y hy => hf y (by simp [hy]))
    omega

/-- A left join emits at least one output row per left row. -/
lemma joinRows_left_length (lrows rrows : List Row) (lk rk : String)
    (lp rp : Row → Row) (rn : Row) :
    lrows.length ≤ (joinRows How.left lrows rrows lk rk lp rp rn).length := by
  rw [joinRows]
  apply length_le_flatten_map
  intro x _
  cases hms : rrows.filter (fun rr => keyMatch lk rk x rr) with
  | nil => simp [hms]
  | cons a as => simp [hms]

/-- An inner join with no matching keys anywhere emits no rows. -/
lemma joinRows_inner_nomatch (lrows rrows : List Row) (lk rk : String)
    (lp rp : Row → Row) (rn : Row)
    (h : ∀ lr ∈ lrows, rrows.filter (fun rr => keyMatch lk rk lr rr) = []) :
    joinRows How.inner lrows rrows lk rk lp rp rn = [] := by
  rw [joinRows]
  induction lrows with
  | nil => rfl
  | cons x xs ih =>
    have hx := h x (by simp)
    simp only [List.map_cons, List.flatten_cons, hx]
    exact ih (fun y hy => h y (by simp [hy]))

lemma mergeOn_left_le (l r : DF) (k sl sr : String) (m : DF)
    (hm : mergeOn l r k How.left sl sr = some m) :
    l.rows.length ≤ m.rows.length := by
  simp only [mergeOn] at hm
  split at hm
  · split at hm
    · obtain rfl : _ = m := Option.some.inj hm
      exact joinRows_left_length _ _ _ _ _ _ _
    · exact absurd hm (by simp)
  · exact absurd hm (by simp)

lemma mergeLR_inner_nomatch (l r : DF) (lk rk sl sr : String) (m : DF)
    (hm : mergeLR l r lk rk How.inner sl sr = some m)
    (h : ∀ lr ∈ l.rows, ∀ rr ∈ r.rows, keyMatch lk rk lr rr = false) :
    m.rows = [] := by
  simp only [mergeLR] at hm
  split at hm
  · split at hm
    · obtain rfl : _ = m := Option.some.inj hm
      dsimp only
      refine joinRows_inner_nomatch l.rows r.rows lk rk _ _ _ ?_
      intro lr hlr
      apply List.filter_eq_nil_iff.mpr
      intro rr hrr
      simp [h lr hlr rr hrr]
    · exact absurd hm (by simp)
  · exact absurd hm (by simp)

lemma add_stadium_names_le (df sdf m : DF) (hm : add_stadium_names df sdf = some m) :
    df.rows.length ≤ m.rows.length := by
  unfold add_stadium_names at hm
  cases hsel : select sdf [STADIUM_ID, "stadium_name"] with
  | none => rw [hsel] at hm; exact absurd hm (by simp [Bind.bind, Option.bind])
  | some t =>
    rw [hsel] at hm
    simp only [Bind.bind, Option.bind] at hm
    exact mergeOn_left_le _ _ _ _ _ _ hm

lemma add_referee_names_le (df rdf m : DF) (hm : add_referee_names df rdf = some m) :
    df.rows.length ≤ m.rows.length := by
  unfold add_referee_names at hm
  cases hsel : select rdf [REFEREE_ID, "referee_name"] with
  | none => rw [hsel] at hm; exact absurd hm (by simp [Bind.bind, Option.bind])
  | some t =>
    rw [hsel] at hm
    simp only [Bind.bind, Option.bind] at hm
    exact mergeOn_left_le _ _ _ _ _ _ hm

/-! ## Claim theorems -/

/-- Claim C1: for every game row with numeric scores, the derived
result_home and result_away are complementary (win/loss, loss/win, or
draw/draw), and the two point values sum to 2 exactly when both results
are draw and to 3 otherwise. -/
theorem C1_results_complementary_points_sum (h a : Int) :
    ∃ rh ra : String,
      calculate_result (mkScoreRow h a) = some rh ∧
      away_result_of (Val.sc (Scalar.s rh)) = Val.sc (Scalar.s ra) ∧
      ((rh = "win" ∧ ra = "loss") ∨ (rh = "loss" ∧ ra = "win") ∨ (rh = "draw" ∧ ra = "draw")) ∧
      valToInt (calculate_points (Val.sc (Scalar.s rh))) +
          valToInt (calculate_points (Val.sc (Scalar.s ra)))
        = if rh = "draw" ∧ ra = "draw" then 2 else 3 := by
  rcases lt_trichotomy a h with hlt | heq | hgt
  · refine ⟨"win", "loss", ?_, by decide, by decide, by decide⟩
    rw [calculate_result_eval, if_pos hlt]
  · refine ⟨"draw", "draw", ?_, by decide, by decide, by decide⟩
    rw [calculate_result_eval, if_neg (by omega), if_neg (by omega)]
  · refine ⟨"loss", "win", ?_, by decide, by decide, by decide⟩
    rw [calculate_result_eval, if_neg (by omega), if_pos hgt]

/-- Claim C2: calculate_result returns 'win'/'loss'/'draw' by comparing
home_score with away_score, calculate_points maps win/draw/loss to 3/1/0,
and running the full pipeline on the fixture whose only game is a 2-1 home
win produces the enriched row (win, 3, loss, 0). -/
theorem C2_result_points_rules (h a : Int) :
    (a < h → calculate_result (mkScoreRow h a) = some "win") ∧
    (h < a → calculate_result (mkScoreRow h a) = some "loss") ∧
    (¬ a < h → ¬ h < a → calculate_result (mkScoreRow h a) = some "draw") ∧
    calculate_points (Val.sc (Scalar.s "win")) = Val.sc (Scalar.i 3) ∧
    calculate_points (Val.sc (Scalar.s "draw")) = Val.sc (Scalar.i 1) ∧
    calculate_points (Val.sc (Scalar.s "loss")) = Val.sc (Scalar.i 0) ∧
    (getTable (fetch_data baseClient COMPETITION) "games").rows.map
        (fun r => (rowGet r "result_home", rowGet r "points_home",
                   rowGet r "result_away", rowGet r "points_away"))
      = [(Val.sc (Scalar.s "win"), Val.sc (Scalar.i 3),
          Val.sc (Scalar.s "loss"), Val.sc (Scalar.i 0))] := by
  refine ⟨?_, ?_, ?_, rfl, rfl, rfl, by decide⟩
  · intro hlt; rw [calculate_result_eval, if_pos hlt]
  · intro hgt; rw [calculate_result_eval, if_neg (by omega), if_pos hgt]
  · intro h1 h2; rw [calculate_result_eval, if_neg h1, if_neg h2]

/-- Witness for C2 at the concrete 2-1 game. -/
theorem C2_result_points_rules_witness :
    (1 : Int) < 2 ∧ calculate_result (mkScoreRow 2 1) = some "win" :=
  ⟨by norm_num, (C2_result_points_rules 2 1).1 (by norm_num)⟩

/-- Claim C3 (code bug): when the third statistics table collides with a
team column, the collision column survives with the '_dup' suffix, because
each drop list is built from the pre-merge column set; here the returned
table still carries `shared_dup`. -/
theorem C3_dup_suffix_column_survives :
    merge_team_statistics dupStatClient dupTeams
      = DF.mk ["team_id", "shared", "shared_dup", "avg_vertical_distance_diff"]
          [[("team_id", Val.sc (Scalar.i 1)), ("shared", Val.sc (Scalar.s "orig")),
            ("shared_dup", Val.sc (Scalar.s "new")),
            ("avg_vertical_distance_diff", Val.sc (Scalar.i 0))]] ∧
    (merge_team_statistics dupStatClient dupTeams).cols.any
        (fun c => strEndsWith c DUPLICATE_SUFFIX) = true := by
  constructor
  · decide
  · decide

/-- Claim C4 (counterexample): when the goals-added fetch fails but the
xgoals and xpass fetches succeed with fresh columns, nothing at all is
merged — the other two sources are not applied and the
avg_vertical_distance_diff column is not defaulted. -/
theorem C4_cex_no_partial_enrichment :
    merge_team_statistics gaFailStatClient dupTeams = dupTeams ∧
    (merge_team_statistics gaFailStatClient dupTeams).cols.contains "xg_stat" = false ∧
    (merge_team_statistics gaFailStatClient dupTeams).cols.contains
        "avg_vertical_distance_diff" = false := by
  refine ⟨by decide, by decide, by decide⟩

/-- Claim C4 (amended): if any of the three team-statistics fetches fails,
merge_team_statistics does not raise and returns the input teams table
completely unchanged — all rows are retained, but none of the three
sources is merged and no expected column is defaulted. -/
theorem C4_fetch_failure_returns_input (cl : Client) (teams : DF)
    (h : cl.get_team_goals_added = none ∨ cl.get_team_xgoals = none ∨
         cl.get_team_xpass = none) :
    merge_team_statistics cl teams = teams := by
  obtain ⟨p, t, st, mg, rf, tga, txg, txp, a1, a2, a3, a4, a5, a6, a7⟩ := cl
  rcases h with h | h | h
  · subst h; rfl
  · subst h
    cases tga with
    | none => rfl
    | some x => rfl
  · subst h
    cases tga with
    | none => rfl
    | some x =>
      cases txg with
      | none => rfl
      | some y => rfl

/-- Witness for C4 at the concrete failing client. -/
theorem C4_fetch_failure_returns_input_witness :
    merge_team_statistics gaFailStatClient dupTeams = dupTeams :=
  C4_fetch_failure_returns_input gaFailStatClient dupTeams (Or.inl rfl)

/-- Claim C5 (counterexample): when only the managers fetch raises, the
referees data is available, yet fetch_data returns the empty mapping — the
unguarded manager_name conversion on the empty fallback frame aborts the
whole pipeline, so the remaining work never runs. -/
theorem C5_cex_managers_failure_empty_mapping :
    fetch_data managersFailClient COMPETITION = [] ∧
    managersFailClient.get_referees = some refsTable := by
  exact ⟨by decide, rfl⟩

/-- Claim C5 (amended): each dimension fetch failure is caught and the
dimension replaced by an empty relation, but this does not in general let
the rest of the pipeline run: a stadium fetch failure leaves the pipeline
to complete with an empty stadium table, while a managers (likewise teams,
players or referees) fetch failure makes a subsequent unguarded column
operation on the empty relation raise, aborting the pipeline into an empty
result mapping. -/
theorem C5_degradation_behaviour :
    (fetch_data stadiaFailClient COMPETITION).map Prod.fst
      = ["games", "players", "field_players", "goalkeepers", "teams", "stadium",
         "mgrs", "refs"] ∧
    getTable (fetch_data stadiaFailClient COMPETITION) "stadium" = DF.empty ∧
    (getTable (fetch_data stadiaFailClient COMPETITION) "teams").rows.length = 2 ∧
    fetch_data managersFailClient COMPETITION = [] := by
  refine ⟨by decide, by decide, by decide, by decide⟩

/-- Claim C6 (code bug): with every fetch succeeding except get_games,
fetch_data returns the empty mapping — the `games` local is never bound,
so assembling the output raises and the top-level handler returns the
initial empty dict; with get_games succeeding, the same client produces
the fully populated eight-key mapping. -/
theorem C6_games_failure_empty_mapping :
    fetch_data gamesFailClient COMPETITION = [] ∧
    (fetch_data baseClient COMPETITION).map Prod.fst
      = ["games", "players", "field_players", "goalkeepers", "teams", "stadium",
         "mgrs", "refs"] := by
  refine ⟨by decide, by decide⟩

/-- Claim C7 (counterexample): the one game row references home_team_id 3,
which resolves to no team; the enriched games table is empty — the row was
dropped by the inner team join instead of being kept with missing values. -/
theorem C7_cex_unresolved_reference_drops_row :
    gamesTableUnresolved.rows.length = 1 ∧
    (getTable (fetch_data unresolvedGameClient COMPETITION) "games").rows.length = 0 := by
  refine ⟨by decide, by decide⟩

/-- Claim C7 (amended): the stadium and referee joins are left joins and
keep at least one output row per game row, but the home/away team and
manager joins are pandas default (inner) joins: a game row whose key
matches no dimension row contributes no output row at all. -/
theorem C7_join_semantics :
    (∀ df sdf m, add_stadium_names df sdf = some m → df.rows.length ≤ m.rows.length) ∧
    (∀ df rdf m, add_referee_names df rdf = some m → df.rows.length ≤ m.rows.length) ∧
    (∀ l r lk rk sl sr m, mergeLR l r lk rk How.inner sl sr = some m →
      (∀ lr ∈ l.rows, ∀ rr ∈ r.rows, keyMatch lk rk lr rr = false) → m.rows = []) :=
  ⟨add_stadium_names_le, add_referee_names_le, mergeLR_inner_nomatch⟩

/-- The stadium join of the fixture game table, for the C7 witness. -/
def c7StadiumMerged : DF := orElseDF (add_stadium_names gamesTable stadiaTable) DF.empty

/-- The inner home-team join of the unresolved fixture game, for the C7
witness. -/
def c7InnerEmpty : DF :=
  orElseDF (mergeLR gamesTableUnresolved (twoTeams "Team A" "Team B" "A" "B")
    HOME_TEAM_ID TEAM_ID How.inner "_x" "_y") DF.empty

/-- Witness for C7 at concrete joins. -/
theorem C7_join_semantics_witness :
    gamesTable.rows.length ≤ c7StadiumMerged.rows.length ∧ c7InnerEmpty.rows = [] :=
  ⟨C7_join_semantics.1 gamesTable stadiaTable c7StadiumMerged (by decide),
   C7_join_semantics.2.2 gamesTableUnresolved (twoTeams "Team A" "Team B" "A" "B")
     HOME_TEAM_ID TEAM_ID "_x" "_y" c7InnerEmpty (by decide) (by decide)⟩

/-- Claim C8 (counterexample): expanding the player with team_id [1, 2]
yields two rows, but no team_abbreviation column is merged — the source
merges only team_id and team_name. -/
theorem C8_cex_no_abbreviation_merged :
    (add_team_names multiTeamPlayer (twoTeams "Team A" "Team B" "A" "B")).map
        (fun d => d.cols.contains "team_abbreviation") = some false ∧
    (add_team_names multiTeamPlayer (twoTeams "Team A" "Team B" "A" "B")).map
        (fun d => d.rows.length) = some 2 := by
  refine ⟨by decide, by decide⟩

/-- Claim C8 (amended): expanding a player row whose team_id is the list
[1, 2] yields exactly two rows, identical except for team_id and
team_name; only the team name is merged, and no team_abbreviation column
is added. -/
theorem C8_expand_two_rows_name_only (na nb a1 a2 : String) :
    add_team_names multiTeamPlayer (twoTeams na nb a1 a2)
      = some (multiTeamExpanded na nb) ∧
    ¬ "team_abbreviation" ∈ (multiTeamExpanded na nb).cols := by
  refine ⟨rfl, ?_⟩
  have hc : (multiTeamExpanded na nb).cols = ["player_id", "team_id", "team_name"] := rfl
  rw [hc]
  decide

/-- Claim C9: the goalkeeper subset (primary_broad_position == 'GK') and
the field-player subset (!=) are disjoint, their sizes sum to the full
player table, and every player row — including rows whose position is
missing — lands in exactly one of the two subsets. -/
theorem C9_split_partition (df fp gk : DF)
    (h1 : filterNeCol df "primary_broad_position" (Val.sc (Scalar.s "GK")) = some fp)
    (h2 : filterEqCol df "primary_broad_position" (Val.sc (Scalar.s "GK")) = some gk) :
    gk.rows.length + fp.rows.length = df.rows.length ∧
    ∀ r ∈ df.rows, (r ∈ gk.rows ∧ ¬ r ∈ fp.rows) ∨ (r ∈ fp.rows ∧ ¬ r ∈ gk.rows) := by
  simp only [filterNeCol] at h1
  simp only [filterEqCol] at h2
  by_cases hcol : df.cols.contains "primary_broad_position" = true
  · rw [if_pos hcol] at h1 h2
    obtain rfl : _ = fp := Option.some.inj h1
    obtain rfl : _ = gk := Option.some.inj h2
    dsimp only
    constructor
    · exact filter_split_length _ _
    · intro r hr
      cases hp : rowGet r "primary_broad_position" == Val.sc (Scalar.s "GK")
      · right
        refine ⟨List.mem_filter.mpr ⟨hr, by simp [hp]⟩, ?_⟩
        intro hc
        have := (List.mem_filter.mp hc).2
        simp [hp] at this
      · left
        refine ⟨List.mem_filter.mpr ⟨hr, hp⟩, ?_⟩
        intro hc
        have := (List.mem_filter.mp hc).2
        simp [hp] at this
  · rw [if_neg hcol] at h1
    exact absurd h1 (by simp)

/-- A three-row position table (GK, MF, missing), for the C9 witness. -/
def posSplitDF : DF :=
  DF.mk ["primary_broad_position"]
    [[("primary_broad_position", Val.sc (Scalar.s "GK"))],
     [("primary_broad_position", Val.sc (Scalar.s "MF"))],
     [("primary_broad_position", Val.sc Scalar.null)]]

def posFieldDF : DF :=
  orElseDF (filterNeCol posSplitDF "primary_broad_position" (Val.sc (Scalar.s "GK"))) DF.empty

def posGKDF : DF :=
  orElseDF (filterEqCol posSplitDF "primary_broad_position" (Val.sc (Scalar.s "GK"))) DF.empty

/-- Witness for C9 at a concrete player table. -/
theorem C9_split_partition_witness :
    posGKDF.rows.length + posFieldDF.rows.length = posSplitDF.rows.length :=
  (C9_split_partition posSplitDF posFieldDF posGKDF (by decide) (by decide)).1

/-- Claim C10: fetch_data's result does not depend on the caller-supplied
competition argument, which line 184 immediately overwrites with the class
constant 'uslc'. -/
theorem C10_competition_argument_ignored (cl : Client) (c1 c2 : String) :
    fetch_data cl c1 = fetch_data cl c2 := rfl

end USLData
